import Mathlib

/-!
Verification of the server-maintainer repository (Rust, 3 source files).

The development shallowly embeds the code of `src/main.rs` (the control loop
`main_thread` with its `ServerStatus` state machine and the `send_or_queue`
chat batcher) and `src/server_log.rs` (the `scan_line` classifier and the
literal-message scanners built on the `text_io` `try_scan!` macro).

Modelling conventions, used throughout:
  * process handles (`std::process::Child`) are abstract identifiers `Nat`;
  * `chrono` timestamps and `Duration`s are integers counting milliseconds
    (`Duration::seconds(2)` is `2000`, `Duration::minutes(m)` is `60000 * m`,
    `num_seconds` is division by `1000`, `num_milliseconds` is the value);
  * the outside world visible to one loop iteration is an `Env`: the current
    wall clock, the observable result of `try_wait` on each handle (`exited h`
    holds exactly when `try_wait()` returned anything other than `Ok(None)`),
    whether each fallible `spawn()` succeeds and with which child id, whether
    `kill()` succeeds, and whether `bot.connect()` succeeds;
  * `spawn()?` and `bot.connect()?` failures propagate out of `main_thread`
    and terminate it; an aborted iteration is recorded with `halted := true`
    and carries the value of the state variables at the point of the `?`;
  * lines fed to the scanners are modelled as `Char` lists; the Rust code
    iterates over bytes, which coincides with chars on the ASCII lines the
    claims are about;
  * Discord messages sent with `send_discord` are collected in order in a
    `sent` list, `kill()` invocations in a `kills` list, and process spawns in
    a `spawned` list carrying the exact argument vector handed to `mcrcon`
    (the java server command line is configuration plumbing and is recorded
    as the bare constructor `SpawnCmd.server`).
-/

/-! ## Log-line scanner (`src/server_log.rs`) -/

/-- One token of a `text_io` format string: a literal character or a `\x7b\x7d`
capture.  `try_scan!` captures greedily up to the single literal byte that
follows the capture in the format string. -/
inductive FmtTok where
  | lit (c : Char)
  | cap
deriving DecidableEq, Repr

/-- All characters of `s` as literal tokens. -/
def litStr (s : String) : List FmtTok :=
  s.data.map FmtTok.lit

/-- Semantics of `text_io::try_scan!`: match the format tokens against the
input.  A literal must match the next input character exactly; a capture
followed by a literal `d` captures the input up to (excluding) the first `d`,
leaving `d` for the literal match; a capture at the end of the format captures
the rest of the input.  Leftover input after the format is exhausted is
ignored, as `try_scan!` leaves the iterator unconsumed.  Two adjacent captures
never occur in the format strings of this repository. -/
def scanFmt : List FmtTok → List Char → Option (List String)
  | [], _ => some []
  | FmtTok.lit c :: pat, input =>
      match input with
      | [] => none
      | d :: rest => if c = d then scanFmt pat rest else none
  | [FmtTok.cap], input => some [input.asString]
  | FmtTok.cap :: FmtTok.cap :: _, _ => none
  | FmtTok.cap :: FmtTok.lit d :: pat, input =>
      (scanFmt (FmtTok.lit d :: pat) (input.dropWhile (fun c => c ≠ d))).map
        (fun caps => (input.takeWhile (fun c => c ≠ d)).asString :: caps)

/-- `struct ScannedLine` of `server_log.rs`. -/
structure ScannedLine where
  time_str : String
  sender_thread : String
  level : String
  sender_handle : String
  is_chat_msg : Bool
  message : String
deriving DecidableEq, Repr

/-- `bytes_endl!`: the line's characters with a trailing newline appended. -/
def bytes_endl (line : String) : List Char :=
  line.data ++ ['\n']

/-- Format `"[\x7b\x7d] [\x7b\x7d/\x7b\x7d] [\x7b\x7d]: <\x7b\x7d> \x7b\x7d\n"` of `scan_msg`. -/
def chatPat : List FmtTok :=
  litStr "[" ++ [FmtTok.cap] ++ litStr "] [" ++ [FmtTok.cap] ++ litStr "/" ++ [FmtTok.cap] ++
  litStr "] [" ++ [FmtTok.cap] ++ litStr "]: <" ++ [FmtTok.cap] ++ litStr "> " ++ [FmtTok.cap] ++
  litStr "\n"

/-- Format `"[\x7b\x7d] [\x7b\x7d/\x7b\x7d] [\x7b\x7d]: [\x7b\x7d] \x7b\x7d\n"` of `scan_console_msg`. -/
def consolePat : List FmtTok :=
  litStr "[" ++ [FmtTok.cap] ++ litStr "] [" ++ [FmtTok.cap] ++ litStr "/" ++ [FmtTok.cap] ++
  litStr "] [" ++ [FmtTok.cap] ++ litStr "]: [" ++ [FmtTok.cap] ++ litStr "] " ++ [FmtTok.cap] ++
  litStr "\n"

/-- Format `"[\x7b\x7d] [\x7b\x7d/\x7b\x7d] [\x7b\x7d]: [\x7b\x7d]: \x7b\x7d\n"` of `scan_fucky_log`. -/
def fuckyPat : List FmtTok :=
  litStr "[" ++ [FmtTok.cap] ++ litStr "] [" ++ [FmtTok.cap] ++ litStr "/" ++ [FmtTok.cap] ++
  litStr "] [" ++ [FmtTok.cap] ++ litStr "]: [" ++ [FmtTok.cap] ++ litStr "]: " ++ [FmtTok.cap] ++
  litStr "\n"

/-- Format `"[\x7b\x7d] [\x7b\x7d/\x7b\x7d] [\x7b\x7d]: \x7b\x7d\n"` of `scan_log`. -/
def logPat : List FmtTok :=
  litStr "[" ++ [FmtTok.cap] ++ litStr "] [" ++ [FmtTok.cap] ++ litStr "/" ++ [FmtTok.cap] ++
  litStr "] [" ++ [FmtTok.cap] ++ litStr "]: " ++ [FmtTok.cap] ++ litStr "\n"

/-- `scan_msg`: the chat-bracket form; on success `is_chat_msg := true`. -/
def scan_msg (line : String) : Option ScannedLine :=
  match scanFmt chatPat (bytes_endl line) with
  | some [t, th, lv, _tmp, h, m] =>
      some { time_str := t, sender_thread := th, level := lv,
             sender_handle := h, is_chat_msg := true, message := m }
  | _ => none

/-- `scan_console_msg`: the console-say form; chat iff the bracketed sender is
`Server` or `Rcon`. -/
def scan_console_msg (line : String) : Option ScannedLine :=
  match scanFmt consolePat (bytes_endl line) with
  | some [t, th, lv, _tmp, h, m] =>
      some { time_str := t, sender_thread := th, level := lv,
             sender_handle := h, is_chat_msg := (h == "Server" || h == "Rcon"),
             message := m }
  | _ => none

/-- `scan_fucky_log`: the double-tagged form, never chat. -/
def scan_fucky_log (line : String) : Option ScannedLine :=
  match scanFmt fuckyPat (bytes_endl line) with
  | some [t, th, lv, _tmp, h, m] =>
      some { time_str := t, sender_thread := th, level := lv,
             sender_handle := h, is_chat_msg := false, message := m }
  | _ => none

/-- `scan_log`: the bare form, never chat. -/
def scan_log (line : String) : Option ScannedLine :=
  match scanFmt logPat (bytes_endl line) with
  | some [t, th, lv, h, m] =>
      some { time_str := t, sender_thread := th, level := lv,
             sender_handle := h, is_chat_msg := false, message := m }
  | _ => none

/-- `scan_line`: ordered fallback across the four structural patterns. -/
def scan_line (line : String) : Option ScannedLine :=
  ((scan_msg line).orElse fun _ =>
    ((scan_console_msg line).orElse fun _ =>
      ((scan_fucky_log line).orElse fun _ =>
        scan_log line)))

/-- Rust `i64::from_str` applied to the digit run of a capture: an optional
sign followed by at least one decimal digit, within the `i64` range. -/
def digitsToNat (l : List Char) : Option Nat :=
  l.foldl (fun acc c =>
    acc.bind fun n => if c.isDigit then some (n * 10 + (c.toNat - 48)) else none)
    (some 0)

/-- `i64::from_str` on a captured string. -/
def parse_i64 (s : String) : Option Int :=
  match s.data with
  | [] => none
  | '+' :: rest =>
      match rest, digitsToNat rest with
      | _ :: _, some n => if (n : Int) ≤ 2 ^ 63 - 1 then some (n : Int) else none
      | _, _ => none
  | '-' :: rest =>
      match rest, digitsToNat rest with
      | _ :: _, some n => if (n : Int) ≤ 2 ^ 63 then some (-(n : Int)) else none
      | _, _ => none
  | l =>
      match digitsToNat l with
      | some n => if (n : Int) ≤ 2 ^ 63 - 1 then some (n : Int) else none
      | none => none

/-- `enum FromServerLog` of `server_log.rs`; durations in milliseconds. -/
inductive FromServerLog where
  | ServerStarted
  | ServerStopping
  | ServerError (exception : String) (sender : String)
  | LagSpike (length : Int) (ticks : Nat)
  | BackupStarted
  | BackupFinished (time : Int)
  | UserLogin (name : String)
  | UserLogout (name : String)
  | ChatMessage (name : String) (message : String)
deriving DecidableEq, Repr

/-- `scan_backup_stop`: sender must be `minecraft/DedicatedServer`, message
matches `"Server backup done in \x7b\x7d:\x7b\x7d! (\x7b\x7d)\n"` with `i64`
minutes and seconds; the duration is `minutes(mins) + seconds(secs)`. -/
def scan_backup_stop (sender message : String) : Option (FromServerLog × Int) :=
  if sender ≠ "minecraft/DedicatedServer" then none
  else
    match scanFmt
        (litStr "Server backup done in " ++ [FmtTok.cap] ++ litStr ":" ++ [FmtTok.cap] ++
         litStr "! (" ++ [FmtTok.cap] ++ litStr ")\n")
        (bytes_endl message) with
    | some [minsStr, secsStr, _size] =>
        match parse_i64 minsStr, parse_i64 secsStr with
        | some mins, some secs =>
            let time : Int := 60000 * mins + 1000 * secs
            some (FromServerLog.BackupFinished time, time)
        | _, _ => none
    | _ => none

/-! ## Control loop (`src/main.rs`, `main_thread`) -/

/-- `enum ServerStatus` of `main.rs`; `start_time` is a millisecond
timestamp, process handles are abstract ids. -/
inductive ServerStatus where
  | Unknown
  | Offline
  | Starting (server : Nat) (start_time : Int)
  | Running (server : Nat)
  | Stopping (server : Option Nat) (rcon : Option Nat)
deriving DecidableEq, Repr

/-- `enum FromDiscord` of `discord_commands.rs`. -/
inductive FromDiscord where
  | ReconnectEvent
  | ErrorEvent
  | StartServerEvent
  | StopServerEvent
  | KillServerEvent
  | ShutdownServerEvent (h : Nat) (m : Nat)
  | CancelShutdownEvent
  | BackupEvent
  | OpCommandEvent (user : String)
  | StatusQueryEvent
  | HelpEvent
  | UnknownCommand
  | NoCommand
deriving DecidableEq, Repr

/-- `struct CachedChat` of `main_thread`. -/
structure CachedChat where
  name : String
  message : String
deriving DecidableEq, Repr

/-- The chat batcher's state: `last_chat_msg` and `chat_msg_cache`. -/
structure ChatState where
  last_chat_msg : Int
  chat_msg_cache : List CachedChat
deriving DecidableEq, Repr

/-- The rendering of one cached entry inside a flushed batch:
`format!("\n<**\x7b\x7d**> \x7b\x7d", name, message)`. -/
def renderEntry (e : CachedChat) : String :=
  "\n<**" ++ e.name ++ "**> " ++ e.message

/-- `MESSAGE_TIMEOUT = Duration::seconds(2)`, in milliseconds. -/
def MESSAGE_TIMEOUT : Int := 2000

/-- `ERROR_TIMEOUT = Duration::seconds(15)`, in milliseconds. -/
def ERROR_TIMEOUT : Int := 15000

/-- The `send_or_queue!` macro: if more than `MESSAGE_TIMEOUT` elapsed since
`last_chat_msg`, flush the cache plus the new entry as one message built by
appending each entry's rendering to an initially empty string, clear the
cache and set `last_chat_msg := now`; otherwise push the entry. -/
def send_or_queue (now : Int) (cs : ChatState) (name message : String) :
    ChatState × Option String :=
  if now - cs.last_chat_msg > MESSAGE_TIMEOUT then
    let message_str :=
      cs.chat_msg_cache.foldl (fun acc e => acc ++ renderEntry e) ""
    let message_str := message_str ++ renderEntry { name := name, message := message }
    ({ last_chat_msg := now, chat_msg_cache := [] }, some message_str)
  else
    ({ cs with chat_msg_cache := cs.chat_msg_cache ++ [⟨name, message⟩] }, none)

/-- The loop-carried mutable locals of `main_thread`: `server_status`,
`last_error_reported`, and the chat batcher's state. -/
structure MachineState where
  server_status : ServerStatus
  last_error_reported : Int
  chat : ChatState
deriving DecidableEq, Repr

/-- The world as seen by one loop iteration. -/
structure Env where
  /-- `Local::now()` during this iteration, in milliseconds. -/
  now : Int
  /-- `h.try_wait()` returned something other than `Ok(None)`. -/
  exited : Nat → Bool
  /-- result of `Command::new(java_path)...spawn()`: `none` is failure. -/
  spawnServer : Option Nat
  /-- result of `Command::new(mcrcon_path)...spawn()`: `none` is failure. -/
  spawnRcon : Option Nat
  /-- whether `h.kill()` returns `Ok`. -/
  killOk : Nat → Bool
  /-- whether `bot.connect()` succeeds on the reconnect path. -/
  reconnectOk : Bool
  /-- the `rcon_password` config value. -/
  rcon_password : String

/-- A spawned external process: the java server (argv elided, it is pure
configuration plumbing) or the `mcrcon` tool with its argument vector. -/
inductive SpawnCmd where
  | server
  | rcon (args : List String)
deriving DecidableEq, Repr

/-- mcrcon argv of `StopServerEvent`. -/
def stop_args (pwd : String) : List String :=
  ["-P", "25564", "-p", pwd, "-s", "-w", "60",
   "say Shutting down in 5 minutes",
   "say Shutting down in 4 minutes",
   "say Shutting down in 3 minutes",
   "say Shutting down in 2 minutes",
   "say Shutting down in 1 minute",
   "shutdown"]

/-- mcrcon argv of `KillServerEvent`. -/
def kill_args (pwd : String) : List String :=
  ["-P", "25564", "-p", pwd, "-s", "shutdown"]

/-- mcrcon argv of the cancellation notice in `CancelShutdownEvent`. -/
def cancel_args (pwd : String) : List String :=
  ["-P", "25564", "-p", pwd, "-s", "say Shutdown cancelled"]

/-- mcrcon argv of `BackupEvent`. -/
def backup_args (pwd : String) : List String :=
  ["-P", "25564", "-p", pwd, "-s", "backup start"]

/-- mcrcon argv of `OpCommandEvent` (it bundles a backup trigger). -/
def op_args (pwd user : String) : List String :=
  ["-P", "25564", "-p", pwd, "-s", "backup start", "op " ++ user]

/-- The observable outcome of handling one ready `select!` arm (or of the
pre-`select!` poll): the updated loop state, the Discord messages sent in
order, the `kill()` calls made, the processes spawned, and whether a `?`
aborted `main_thread` (spawn or reconnect failure, or `ErrorEvent`). -/
structure StepOut where
  state : MachineState
  sent : List String
  kills : List Nat
  spawned : List SpawnCmd
  halted : Bool
deriving DecidableEq, Repr

/-- The `mc!help` reply text, with `PREFIX = "mc!"` substituted. -/
def helpMsg : String :=
  "Commands:\n    `mc!start` - Starts the server\n    `mc!stop` - Stops the server\n    `mc!kill` - Stops the server without waiting 5 mins\n    `mc!cancel` - Cancels server stop\n    `mc!shutdown [hh:mm]` - Schedules a shutdown in CEST\n    `mc!backup` - Starts a backup on the server (pls no spam)\n    `mc!op` - Ops a user if an accident happens - all ops are logged\n    `mc!status` - Displays server status\n    `mc!help` - Displays this message"

/-- The unexpected-death notification of the periodic poll, with
`PREFIX = "mc!"` substituted. -/
def died_msg : String :=
  "Server died for some reason, mc!start to restart"

/-- A `StepOut` that only carries messages: state unchanged, nothing killed
or spawned, not halted. -/
def replyOnly (s : MachineState) (msgs : List String) : StepOut :=
  { state := s, sent := msgs, kills := [], spawned := [], halted := false }

/-- The `Err(_) | Ok(ReconnectEvent)` arm: `bot.connect()?` then a fresh
channel; on connect failure the `?` aborts `main_thread`. -/
def reconnectStep (env : Env) (s : MachineState) : StepOut :=
  if env.reconnectOk then replyOnly s []
  else { state := s, sent := [], kills := [], spawned := [], halted := true }

/-- Handling of one `Ok(FromDiscord...)` message (lines 192-466 of
`main.rs`). -/
def handle_discord (env : Env) (s : MachineState) : FromDiscord → StepOut
  | FromDiscord.StartServerEvent =>
      match s.server_status with
      | ServerStatus.Running _ | ServerStatus.Stopping _ _ =>
          replyOnly s ["Server already running"]
      | ServerStatus.Starting _ _ =>
          replyOnly s ["Server already starting"]
      | _ =>
          match env.spawnServer with
          | none => { state := s, sent := [], kills := [], spawned := [], halted := true }
          | some pid =>
              { state := { s with server_status := ServerStatus.Starting pid env.now },
                sent := ["Server starting now, ETA 3 minutes"],
                kills := [], spawned := [SpawnCmd.server], halted := false }
  | FromDiscord.StopServerEvent =>
      match s.server_status with
      | ServerStatus.Offline | ServerStatus.Starting _ _ =>
          replyOnly s ["Server's not running (yet)"]
      | ServerStatus.Stopping _ _ =>
          replyOnly s ["Server's already stopping"]
      | ServerStatus.Running p =>
          match env.spawnRcon with
          | none => { state := s, sent := [], kills := [], spawned := [], halted := true }
          | some g =>
              { state := { s with server_status := ServerStatus.Stopping (some p) (some g) },
                sent := ["Server will be stopped in 5 minutes, type `mc!cancel` to cancel"],
                kills := [], spawned := [SpawnCmd.rcon (stop_args env.rcon_password)],
                halted := false }
      | ServerStatus.Unknown =>
          match env.spawnRcon with
          | none => { state := s, sent := [], kills := [], spawned := [], halted := true }
          | some g =>
              { state := { s with server_status := ServerStatus.Stopping none (some g) },
                sent := ["Server will be stopped in 5 minutes, type `mc!cancel` to cancel"],
                kills := [], spawned := [SpawnCmd.rcon (stop_args env.rcon_password)],
                halted := false }
  | FromDiscord.KillServerEvent =>
      match s.server_status with
      | ServerStatus.Offline | ServerStatus.Starting _ _ =>
          replyOnly s ["Server's not running (yet)"]
      | ServerStatus.Stopping _ _ =>
          replyOnly s ["Server's already stopping"]
      | ServerStatus.Running p =>
          match env.spawnRcon with
          | none => { state := s, sent := [], kills := [], spawned := [], halted := true }
          | some g =>
              { state := { s with server_status := ServerStatus.Stopping (some p) (some g) },
                sent := ["Server is stopping now"],
                kills := [], spawned := [SpawnCmd.rcon (kill_args env.rcon_password)],
                halted := false }
      | ServerStatus.Unknown =>
          match env.spawnRcon with
          | none => { state := s, sent := [], kills := [], spawned := [], halted := true }
          | some g =>
              { state := { s with server_status := ServerStatus.Stopping none (some g) },
                sent := ["Server is stopping now"],
                kills := [], spawned := [SpawnCmd.rcon (kill_args env.rcon_password)],
                halted := false }
  | FromDiscord.ShutdownServerEvent _ _ =>
      replyOnly s ["Unimplemented, to be added later"]
  | FromDiscord.CancelShutdownEvent =>
      match s.server_status with
      | ServerStatus.Stopping sp (some g) =>
          let killMsg :=
            if env.killOk g then "Shutdown cancelled" else "Error while cancelling shutdown"
          match env.spawnRcon with
          | none =>
              { state := s, sent := [killMsg], kills := [g], spawned := [], halted := true }
          | some _ =>
              let newStatus :=
                match sp with
                | some p => ServerStatus.Running p
                | none => ServerStatus.Unknown
              { state := { s with server_status := newStatus },
                sent := [killMsg], kills := [g],
                spawned := [SpawnCmd.rcon (cancel_args env.rcon_password)], halted := false }
      | ServerStatus.Stopping _ none =>
          replyOnly s ["Shutdown cannot be cancelled"]
      | ServerStatus.Offline =>
          replyOnly s ["Server's not running"]
      | _ =>
          replyOnly s ["No shutdown in progress"]
  | FromDiscord.BackupEvent =>
      match s.server_status with
      | ServerStatus.Offline | ServerStatus.Starting _ _ =>
          replyOnly s ["Server's not running (yet)"]
      | ServerStatus.Stopping _ _ =>
          replyOnly s ["Server's stopping"]
      | _ =>
          match env.spawnRcon with
          | none => { state := s, sent := [], kills := [], spawned := [], halted := true }
          | some _ =>
              { state := s, sent := ["Backup started."], kills := [],
                spawned := [SpawnCmd.rcon (backup_args env.rcon_password)], halted := false }
  | FromDiscord.OpCommandEvent user =>
      if user = "" then replyOnly s ["Must provide a username to op"]
      else
        match s.server_status with
        | ServerStatus.Offline | ServerStatus.Starting _ _ =>
            replyOnly s ["Server's not running (yet)"]
        | ServerStatus.Stopping _ _ =>
            replyOnly s ["Server's stopping"]
        | _ =>
            match env.spawnRcon with
            | none => { state := s, sent := [], kills := [], spawned := [], halted := true }
            | some _ =>
                { state := s,
                  sent := ["Opped user " ++ user ++ ". All ops are logged.\nDon't forget to de-op yourself after you're done!"],
                  kills := [],
                  spawned := [SpawnCmd.rcon (op_args env.rcon_password user)], halted := false }
  | FromDiscord.StatusQueryEvent =>
      match s.server_status with
      | ServerStatus.Offline => replyOnly s ["Server is offline."]
      | ServerStatus.Unknown => replyOnly s ["Server is probably offline, but worth a try."]
      | ServerStatus.Starting _ _ => replyOnly s ["Server is starting, check back in a few mins."]
      | ServerStatus.Running _ => replyOnly s ["Server is running."]
      | ServerStatus.Stopping _ _ => replyOnly s ["Server is stopping."]
  | FromDiscord.HelpEvent =>
      replyOnly s [helpMsg]
  | FromDiscord.UnknownCommand =>
      replyOnly s ["Unknown command, try `mc!help` if you're stuck"]
  | FromDiscord.NoCommand =>
      replyOnly s ["Unknown command, try `mc!help` if you're stuck"]
  | FromDiscord.ErrorEvent =>
      { state := s, sent := [], kills := [], spawned := [], halted := true }
  | FromDiscord.ReconnectEvent =>
      reconnectStep env s

/-- Handling of one `send_or_queue!` call site inside the log arm. -/
def queueStep (env : Env) (s : MachineState) (name message : String) : StepOut :=
  let r := send_or_queue env.now s.chat name message
  { state := { s with chat := r.1 }, sent := r.2.toList,
    kills := [], spawned := [], halted := false }

/-- Handling of one `Ok(FromServerLog...)` message (lines 468-523 of
`main.rs`). -/
def handle_server_log (env : Env) (s : MachineState) : FromServerLog → StepOut
  | FromServerLog.ServerStarted =>
      match s.server_status with
      | ServerStatus.Starting p start_time =>
          { state := { s with server_status := ServerStatus.Running p },
            sent := ["Server's now running, startup: " ++
                     toString ((env.now - start_time) / 1000) ++ "s"],
            kills := [], spawned := [], halted := false }
      | _ =>
          replyOnly { s with server_status := ServerStatus.Unknown } []
  | FromServerLog.ServerStopping =>
      let s2 :=
        match s.server_status with
        | ServerStatus.Running p =>
            { s with server_status := ServerStatus.Stopping (some p) none }
        | _ => s
      replyOnly s2 ["Server is now stopping..."]
  | FromServerLog.ServerError exception sender =>
      match s.server_status with
      | ServerStatus.Running _ | ServerStatus.Stopping _ _ =>
          if env.now - s.last_error_reported ≥ ERROR_TIMEOUT then
            replyOnly { s with last_error_reported := env.now }
              ["Server encountered an exception:```md\n" ++ sender ++ ": " ++ exception ++ "```"]
          else replyOnly s []
      | _ => replyOnly s []
  | FromServerLog.LagSpike length ticks =>
      replyOnly s
        ["Lag spike - " ++ toString length ++ "ms, skipped " ++ toString ticks ++
         " ticks\nIf the problem persists, restart the server"]
  | FromServerLog.BackupStarted =>
      queueStep env s "Server" "*Backup started*"
  | FromServerLog.BackupFinished time =>
      queueStep env s "Server" ("*Backup finished - " ++ toString (time / 1000) ++ "s*")
  | FromServerLog.UserLogin name =>
      queueStep env s "Server" ("*" ++ name ++ " joined the game*")
  | FromServerLog.UserLogout name =>
      queueStep env s "Server" ("*" ++ name ++ " left the game*")
  | FromServerLog.ChatMessage name message =>
      queueStep env s name message

/-- The `Err(_)` arm of the log channel: force `Unknown` unless the status is
already `Unknown` or `Offline`, and re-establish the channel. -/
def logChannelClosed (s : MachineState) : StepOut :=
  match s.server_status with
  | ServerStatus.Unknown | ServerStatus.Offline => replyOnly s []
  | _ => replyOnly { s with server_status := ServerStatus.Unknown } []

/-- One ready source of the `select!`: a Discord-channel receive (`none` is a
channel `Err(_)`), a log-channel receive (`none` likewise), or the timer. -/
inductive Inbound where
  | discordMsg (m : Option FromDiscord)
  | serverLogMsg (m : Option FromServerLog)
  | timerTick
deriving Repr

/-- Dispatch of the ready `select!` arm. -/
def handleInbound (env : Env) (s : MachineState) : Inbound → StepOut
  | Inbound.discordMsg none => reconnectStep env s
  | Inbound.discordMsg (some ev) => handle_discord env s ev
  | Inbound.serverLogMsg none => logChannelClosed s
  | Inbound.serverLogMsg (some ev) => handle_server_log env s ev
  | Inbound.timerTick => replyOnly s []

/-- Outcome of the pre-`select!` periodic poll (lines 146-188 of `main.rs`). -/
structure PollOut where
  state : MachineState
  sent : List String
  kills : List Nat
deriving DecidableEq, Repr

/-- The periodic poll executed at the top of every loop iteration, before the
`select!`: in `Stopping` with a retained process handle, check both handles
and transition to `Offline` when the process has exited (force-killing a
still-running rcon handle); in `Running`, transition to `Offline` with the
death notification when the process has exited. -/
def pollStep (env : Env) (s : MachineState) : PollOut :=
  match s.server_status with
  | ServerStatus.Stopping (some p) g =>
      if env.exited p then
        match g with
        | some r =>
            if env.exited r then
              { state := { s with server_status := ServerStatus.Offline },
                sent := ["Server stopped."], kills := [] }
            else
              { state := { s with server_status := ServerStatus.Offline },
                sent := ["Server stopped before time."], kills := [r] }
        | none =>
            { state := { s with server_status := ServerStatus.Offline },
              sent := ["Server stopped."], kills := [] }
      else { state := s, sent := [], kills := [] }
  | ServerStatus.Running p =>
      if env.exited p then
        { state := { s with server_status := ServerStatus.Offline },
          sent := [died_msg], kills := [] }
      else { state := s, sent := [], kills := [] }
  | _ => { state := s, sent := [], kills := [] }

/-- One iteration of the control loop: the periodic poll runs first, then the
ready `select!` arm is handled from the post-poll state. -/
def loopIter (env : Env) (s : MachineState) (ev : Inbound) : StepOut :=
  let p := pollStep env s
  let r := handleInbound env p.state ev
  { state := r.state, sent := p.sent ++ r.sent, kills := p.kills ++ r.kills,
    spawned := r.spawned, halted := r.halted }

/-! ## Spec-side definitions and concrete scenarios used by the theorems -/

/-- The fixed state-to-reply mapping of `StatusQueryEvent`, as the spec
describes it (one fixed reply per state). -/
def status_reply : ServerStatus → String
  | ServerStatus.Offline => "Server is offline."
  | ServerStatus.Unknown => "Server is probably offline, but worth a try."
  | ServerStatus.Starting _ _ => "Server is starting, check back in a few mins."
  | ServerStatus.Running _ => "Server is running."
  | ServerStatus.Stopping _ _ => "Server is stopping."

/-- The eleven operator commands, as distinct from the channel-management
events `ReconnectEvent` and `ErrorEvent`. -/
def isOperatorCommand : FromDiscord → Bool
  | FromDiscord.ReconnectEvent => false
  | FromDiscord.ErrorEvent => false
  | _ => true

/-- An environment where every `spawn()` fails and no process has exited. -/
def envNoSpawn : Env :=
  { now := 0, exited := fun _ => false, spawnServer := none, spawnRcon := none,
    killOk := fun _ => true, reconnectOk := true, rcon_password := "hunter2" }

/-- An environment where every `spawn()` succeeds and every `try_wait`
reports the process as exited. -/
def envAllExited : Env :=
  { now := 5000, exited := fun _ => true, spawnServer := some 7, spawnRcon := some 8,
    killOk := fun _ => true, reconnectOk := true, rcon_password := "hunter2" }

/-- An environment where every `spawn()` succeeds and no process has
exited. -/
def envQuiet : Env :=
  { now := 5000, exited := fun _ => false, spawnServer := some 7, spawnRcon := some 8,
    killOk := fun _ => true, reconnectOk := true, rcon_password := "hunter2" }

/-- Loop state: `Running` with process handle `0`, empty chat cache. -/
def sRunning0 : MachineState :=
  { server_status := ServerStatus.Running 0, last_error_reported := 0,
    chat := { last_chat_msg := 0, chat_msg_cache := [] } }

/-- Loop state: `Unknown`, empty chat cache. -/
def sUnknown : MachineState :=
  { server_status := ServerStatus.Unknown, last_error_reported := 0,
    chat := { last_chat_msg := 0, chat_msg_cache := [] } }

/-- Loop state: `Stopping` with both handles retained, empty chat cache. -/
def sStoppingBoth : MachineState :=
  { server_status := ServerStatus.Stopping (some 3) (some 4), last_error_reported := 0,
    chat := { last_chat_msg := 0, chat_msg_cache := [] } }

/-! ## Helper lemmas on strings -/

theorem str_data_append (s t : String) : (s ++ t).data = s.data ++ t.data := rfl

theorem ne_append_right (d p : String) (n : Nat) (hn : n ≤ p.data.length)
    (h : d.data.take n ≠ p.data.take n) (x : String) : d ≠ p ++ x := by
  intro he
  apply h
  rw [he, str_data_append, List.take_append_of_le_length hn]

theorem head_append (a b : String) (c : Char) (h : a.data.head? = some c) :
    (a ++ b).data.head? = some c := by
  rw [str_data_append]
  cases ha : a.data with
  | nil => rw [ha] at h; cases h
  | cons y t => rw [ha] at h; simpa using h

theorem renderEntry_head (e : CachedChat) : (renderEntry e).data.head? = some '\n' := by
  unfold renderEntry
  exact head_append "\n<**" (e.name ++ "**> " ++ e.message) '\n' (by decide)

theorem fold_render_head (cache : List CachedChat) (a : String)
    (ha : a.data = [] ∨ a.data.head? = some '\n') :
    (cache.foldl (fun acc x => acc ++ renderEntry x) a).data = [] ∨
    (cache.foldl (fun acc x => acc ++ renderEntry x) a).data.head? = some '\n' := by
  induction cache generalizing a with
  | nil => exact ha
  | cons e l ih =>
      apply ih
      rcases ha with h | h
      · right
        rw [str_data_append, h]
        simpa using renderEntry_head e
      · right
        exact head_append _ _ _ h

theorem flush_head (cache : List CachedChat) (e : CachedChat) :
    ((cache.foldl (fun acc x => acc ++ renderEntry x) "") ++ renderEntry e).data.head? =
      some '\n' := by
  rcases fold_render_head cache "" (Or.inl rfl) with h | h
  · rw [str_data_append, h]
    simpa using renderEntry_head e
  · exact head_append _ _ _ h

/-! ## Scanner claims -/

/-- C7: `scan_line` applied to
`"[21:07:11] [Server thread/INFO] [minecraft/DedicatedServer]: <Kistepsi> nem"`
succeeds with a chat event (`is_chat_msg = true`), sender `"Kistepsi"` and
message `"nem"`. -/
theorem c7_scan_line_chat_roundtrip :
    scan_line "[21:07:11] [Server thread/INFO] [minecraft/DedicatedServer]: <Kistepsi> nem" =
      some { time_str := "21:07:11", sender_thread := "Server thread", level := "INFO",
             sender_handle := "Kistepsi", is_chat_msg := true, message := "nem" } := by
  decide

/-- C8: `scan_backup_stop` with sender `"minecraft/DedicatedServer"` on
`"Server backup done in 00:10! (202.8MB | 1.2GB)"` yields `BackupFinished`
with a single normalized duration of 10 seconds (10000 ms), and the literal
edge case `"00:00"` yields the zero duration. -/
theorem c8_backup_duration :
    scan_backup_stop "minecraft/DedicatedServer"
        "Server backup done in 00:10! (202.8MB | 1.2GB)" =
      some (FromServerLog.BackupFinished (10 * 1000), 10 * 1000) ∧
    scan_backup_stop "minecraft/DedicatedServer"
        "Server backup done in 00:00! (202.8MB | 1.2GB)" =
      some (FromServerLog.BackupFinished 0, 0) := by
  constructor
  · decide
  · decide

/-! ## State-machine claims -/

/-- C5: handling `StatusRequested` never changes the loop state (so any
sequence of them leaves it fixed), never aborts, and replies with exactly the
fixed per-state mapping; the mapping realizes the spec's words: "offline",
"probably offline", "starting", "running", "stopping". -/
theorem c5_status_idempotent_fixed_mapping (env : Env) (s : MachineState) :
    (handle_discord env s FromDiscord.StatusQueryEvent).state = s ∧
    (handle_discord env s FromDiscord.StatusQueryEvent).halted = false ∧
    (handle_discord env s FromDiscord.StatusQueryEvent).sent = [status_reply s.server_status] ∧
    (∀ n : Nat,
      (fun st => (handle_discord env st FromDiscord.StatusQueryEvent).state)^[n] s = s) ∧
    ("offline".data.IsInfix (status_reply ServerStatus.Offline).data ∧
     "probably offline".data.IsInfix (status_reply ServerStatus.Unknown).data ∧
     (∀ p t, "starting".data.IsInfix (status_reply (ServerStatus.Starting p t)).data) ∧
     (∀ p, "running".data.IsInfix (status_reply (ServerStatus.Running p)).data) ∧
     (∀ sp g, "stopping".data.IsInfix (status_reply (ServerStatus.Stopping sp g)).data)) := by
  refine ⟨?_, ?_, ?_, ?_, ?_⟩
  · cases hst : s.server_status <;> simp [handle_discord, hst, replyOnly]
  · cases hst : s.server_status <;> simp [handle_discord, hst, replyOnly]
  · cases hst : s.server_status <;> simp [handle_discord, hst, replyOnly, status_reply]
  · intro n
    apply Function.iterate_fixed
    cases hst : s.server_status <;> simp [handle_discord, hst, replyOnly]
  · exact ⟨by decide, by decide, fun p t => by simp [status_reply]; decide,
      fun p => by simp [status_reply]; decide, fun sp g => by simp [status_reply]; decide⟩

/-- C10: in `Stopping` with no retained process handle, the periodic poll is
inert: the loop state, including the status, is unchanged, nothing is sent
and nothing is killed, and this holds after any number of consecutive polls,
so the state persists until some inbound event changes it. -/
theorem c10_stopping_no_handle_poll_inert (env : Env) (g : Option Nat)
    (le lc : Int) (cache : List CachedChat) :
    pollStep env
        { server_status := ServerStatus.Stopping none g, last_error_reported := le,
          chat := { last_chat_msg := lc, chat_msg_cache := cache } } =
      { state := { server_status := ServerStatus.Stopping none g, last_error_reported := le,
                   chat := { last_chat_msg := lc, chat_msg_cache := cache } },
        sent := [], kills := [] } ∧
    (∀ n : Nat,
      (fun m => (pollStep env m).state)^[n]
          { server_status := ServerStatus.Stopping none g, last_error_reported := le,
            chat := { last_chat_msg := lc, chat_msg_cache := cache } } =
        { server_status := ServerStatus.Stopping none g, last_error_reported := le,
          chat := { last_chat_msg := lc, chat_msg_cache := cache } }) := by
  refine ⟨rfl, fun n => Function.iterate_fixed rfl n⟩

/-- C2: `CancelShutdownRequested` in `Stopping` with the graceful (rcon)
handle present kills the graceful handle, spawns the cancellation-notice
rcon command, and, provided that spawn succeeds, transitions to `Running`
carrying the retained process handle, or to `Unknown` when no process handle
was retained.  (The kill-result only selects the reply text.) -/
theorem c2_cancel_shutdown (env : Env) (s : MachineState) (g q : Nat)
    (hspawn : env.spawnRcon = some q) :
    (∀ p, s.server_status = ServerStatus.Stopping (some p) (some g) →
      handle_discord env s FromDiscord.CancelShutdownEvent =
        { state := { s with server_status := ServerStatus.Running p },
          sent := [if env.killOk g then "Shutdown cancelled"
                   else "Error while cancelling shutdown"],
          kills := [g],
          spawned := [SpawnCmd.rcon (cancel_args env.rcon_password)],
          halted := false }) ∧
    (s.server_status = ServerStatus.Stopping none (some g) →
      handle_discord env s FromDiscord.CancelShutdownEvent =
        { state := { s with server_status := ServerStatus.Unknown },
          sent := [if env.killOk g then "Shutdown cancelled"
                   else "Error while cancelling shutdown"],
          kills := [g],
          spawned := [SpawnCmd.rcon (cancel_args env.rcon_password)],
          halted := false }) := by
  constructor
  · intro p hst
    simp [handle_discord, hst, hspawn]
  · intro hst
    simp [handle_discord, hst, hspawn]

/-- C2 witness: from `Stopping` with both handles, with a succeeding spawn,
cancellation returns to `Running 3` having killed rcon handle `4` and spawned
the cancellation notice. -/
theorem c2_cancel_shutdown_witness :
    envQuiet.spawnRcon = some 8 ∧
    sStoppingBoth.server_status = ServerStatus.Stopping (some 3) (some 4) ∧
    handle_discord envQuiet sStoppingBoth FromDiscord.CancelShutdownEvent =
      { state := { sStoppingBoth with server_status := ServerStatus.Running 3 },
        sent := [if envQuiet.killOk 4 then "Shutdown cancelled"
                 else "Error while cancelling shutdown"],
        kills := [4],
        spawned := [SpawnCmd.rcon (cancel_args envQuiet.rcon_password)],
        halted := false } :=
  ⟨rfl, rfl, (c2_cancel_shutdown envQuiet sStoppingBoth 4 8 rfl).1 3 rfl⟩

/-- C9: `StopRequested` and `KillRequested` in state `Unknown` are not
no-ops: each issues the remote shutdown rcon command and moves to `Stopping`
with the graceful handle present and no retained process handle. -/
theorem c9_stop_kill_from_unknown (env : Env) (s : MachineState) (q : Nat)
    (hs : s.server_status = ServerStatus.Unknown) (hspawn : env.spawnRcon = some q) :
    handle_discord env s FromDiscord.StopServerEvent =
      { state := { s with server_status := ServerStatus.Stopping none (some q) },
        sent := ["Server will be stopped in 5 minutes, type `mc!cancel` to cancel"],
        kills := [], spawned := [SpawnCmd.rcon (stop_args env.rcon_password)],
        halted := false } ∧
    handle_discord env s FromDiscord.KillServerEvent =
      { state := { s with server_status := ServerStatus.Stopping none (some q) },
        sent := ["Server is stopping now"],
        kills := [], spawned := [SpawnCmd.rcon (kill_args env.rcon_password)],
        halted := false } := by
  constructor
  · simp [handle_discord, hs, hspawn]
  · simp [handle_discord, hs, hspawn]

/-- C9 witness: concrete `Unknown` state with a succeeding spawn. -/
theorem c9_stop_kill_from_unknown_witness :
    sUnknown.server_status = ServerStatus.Unknown ∧
    envQuiet.spawnRcon = some 8 ∧
    handle_discord envQuiet sUnknown FromDiscord.StopServerEvent =
      { state := { sUnknown with server_status := ServerStatus.Stopping none (some 8) },
        sent := ["Server will be stopped in 5 minutes, type `mc!cancel` to cancel"],
        kills := [], spawned := [SpawnCmd.rcon (stop_args envQuiet.rcon_password)],
        halted := false } :=
  ⟨rfl, rfl, (c9_stop_kill_from_unknown envQuiet sUnknown 8 rfl rfl).1⟩

/-- C6: two `send_or_queue` submissions within `MESSAGE_TIMEOUT` of the last
flush produce no outbound send and buffer both entries in order; a third
submission after the interval produces exactly one outbound message rendering
all three entries in arrival order, one per line, each prefixed with its
sender name, after which the cache is empty and `last_chat_msg` is the flush
time. -/
theorem c6_chat_batcher (t0 t1 t2 t3 : Int) (n1 m1 n2 m2 n3 m3 : String)
    (h1 : t1 - t0 ≤ MESSAGE_TIMEOUT) (h2 : t2 - t0 ≤ MESSAGE_TIMEOUT)
    (h3 : t3 - t0 > MESSAGE_TIMEOUT) :
    send_or_queue t1 { last_chat_msg := t0, chat_msg_cache := [] } n1 m1 =
      ({ last_chat_msg := t0, chat_msg_cache := [⟨n1, m1⟩] }, none) ∧
    send_or_queue t2 { last_chat_msg := t0, chat_msg_cache := [⟨n1, m1⟩] } n2 m2 =
      ({ last_chat_msg := t0, chat_msg_cache := [⟨n1, m1⟩, ⟨n2, m2⟩] }, none) ∧
    send_or_queue t3 { last_chat_msg := t0, chat_msg_cache := [⟨n1, m1⟩, ⟨n2, m2⟩] } n3 m3 =
      ({ last_chat_msg := t3, chat_msg_cache := [] },
       some (renderEntry ⟨n1, m1⟩ ++ renderEntry ⟨n2, m2⟩ ++ renderEntry ⟨n3, m3⟩)) := by
  simp only [MESSAGE_TIMEOUT] at h1 h2 h3
  refine ⟨?_, ?_, ?_⟩
  · simp only [send_or_queue, MESSAGE_TIMEOUT]
    rw [if_neg (by omega)]
    rfl
  · simp only [send_or_queue, MESSAGE_TIMEOUT]
    rw [if_neg (by omega)]
    rfl
  · simp only [send_or_queue, MESSAGE_TIMEOUT]
    rw [if_pos (by omega)]
    show _ = (_, some ((renderEntry ⟨n1, m1⟩ ++ renderEntry ⟨n2, m2⟩) ++ renderEntry ⟨n3, m3⟩))
    rfl

/-- C6 witness: concrete times 1000 and 2000 within the 2000 ms interval of a
flush at 0, then 2001 outside it; the combined message renders the three
entries in order. -/
theorem c6_chat_batcher_witness :
    (1000 : Int) - 0 ≤ MESSAGE_TIMEOUT ∧ (2000 : Int) - 0 ≤ MESSAGE_TIMEOUT ∧
    ((2001 : Int) - 0 > MESSAGE_TIMEOUT) ∧
    send_or_queue 2001
        { last_chat_msg := 0, chat_msg_cache := [⟨"alice", "hi"⟩, ⟨"bob", "yo"⟩] } "carol" "ok" =
      ({ last_chat_msg := 2001, chat_msg_cache := [] },
       some (renderEntry ⟨"alice", "hi"⟩ ++ renderEntry ⟨"bob", "yo"⟩ ++ renderEntry ⟨"carol", "ok"⟩)) :=
  ⟨by decide, by decide, by decide,
   (c6_chat_batcher 0 1000 2000 2001 "alice" "hi" "bob" "yo" "carol" "ok"
     (by decide) (by decide) (by decide)).2.2⟩

/-! ## The death notification is emitted only by the periodic poll -/

theorem died_not_in_queueStep (env : Env) (s : MachineState) (n m : String) :
    died_msg ∉ (queueStep env s n m).sent := by
  simp only [queueStep, send_or_queue]
  split
  · intro hmem
    simp only [Option.toList, List.mem_singleton] at hmem
    have h1 := flush_head s.chat.chat_msg_cache ⟨n, m⟩
    rw [← hmem] at h1
    exact absurd h1 (by decide)
  · simp

theorem died_not_in_discord (env : Env) (s : MachineState) (ev : FromDiscord) :
    died_msg ∉ (handle_discord env s ev).sent := by
  cases ev with
  | ReconnectEvent =>
      simp only [handle_discord, reconnectStep]
      split <;> simp [replyOnly]
  | ErrorEvent => simp [handle_discord]
  | StartServerEvent =>
      cases hst : s.server_status <;>
        simp only [handle_discord, hst, replyOnly] <;>
        first
          | decide
          | (cases hsp : env.spawnServer <;> simp only [hsp] <;> decide)
  | StopServerEvent =>
      cases hst : s.server_status <;>
        simp only [handle_discord, hst, replyOnly] <;>
        first
          | decide
          | (cases hsr : env.spawnRcon <;> simp only [hsr] <;> decide)
  | KillServerEvent =>
      cases hst : s.server_status <;>
        simp only [handle_discord, hst, replyOnly] <;>
        first
          | decide
          | (cases hsr : env.spawnRcon <;> simp only [hsr] <;> decide)
  | ShutdownServerEvent h m => simp only [handle_discord, replyOnly]; decide
  | CancelShutdownEvent =>
      cases hst : s.server_status with
      | Stopping sp g =>
          cases g with
          | some g0 =>
              simp only [handle_discord, hst]
              cases hsr : env.spawnRcon <;> simp only [hsr] <;>
                split <;> decide
          | none => simp only [handle_discord, hst, replyOnly]; decide
      | Unknown => simp only [handle_discord, hst, replyOnly]; decide
      | Offline => simp only [handle_discord, hst, replyOnly]; decide
      | Starting p t => simp only [handle_discord, hst, replyOnly]; decide
      | Running p => simp only [handle_discord, hst, replyOnly]; decide
  | BackupEvent =>
      cases hst : s.server_status <;>
        simp only [handle_discord, hst, replyOnly] <;>
        first
          | decide
          | (cases hsr : env.spawnRcon <;> simp only [hsr] <;> decide)
  | OpCommandEvent user =>
      by_cases hu : user = ""
      · simp only [handle_discord, hu, if_pos, replyOnly]
        decide
      · simp only [handle_discord, if_neg hu]
        cases hst : s.server_status <;> simp only [hst, replyOnly] <;>
          first
            | decide
            | (cases hsr : env.spawnRcon <;> simp only [hsr, List.mem_singleton] <;>
                first
                  | decide
                  | exact ne_append_right died_msg "Opped user " 1 (by decide) (by decide) _)
  | StatusQueryEvent =>
      cases hst : s.server_status <;> simp only [handle_discord, hst, replyOnly] <;> decide
  | HelpEvent => simp only [handle_discord, replyOnly]; decide
  | UnknownCommand => simp only [handle_discord, replyOnly]; decide
  | NoCommand => simp only [handle_discord, replyOnly]; decide

theorem died_not_in_log (env : Env) (s : MachineState) (ev : FromServerLog) :
    died_msg ∉ (handle_server_log env s ev).sent := by
  cases ev with
  | ServerStarted =>
      cases hst : s.server_status with
      | Starting p t =>
          simp only [handle_server_log, hst, List.mem_singleton]
          exact ne_append_right died_msg "Server's now running, startup: " 8
            (by decide) (by decide) _
      | Unknown => simp [handle_server_log, hst, replyOnly]
      | Offline => simp [handle_server_log, hst, replyOnly]
      | Running p => simp [handle_server_log, hst, replyOnly]
      | Stopping a b => simp [handle_server_log, hst, replyOnly]
  | ServerStopping =>
      simp only [handle_server_log, replyOnly]
      decide
  | ServerError exc snd =>
      cases hst : s.server_status with
      | Running p =>
          simp only [handle_server_log, hst]
          split
          · simp only [replyOnly, List.mem_singleton]
            exact ne_append_right died_msg "Server encountered an exception:```md\n" 8
              (by decide) (by decide) _
          · simp [replyOnly]
      | Stopping a b =>
          simp only [handle_server_log, hst]
          split
          · simp only [replyOnly, List.mem_singleton]
            exact ne_append_right died_msg "Server encountered an exception:```md\n" 8
              (by decide) (by decide) _
          · simp [replyOnly]
      | Unknown => simp [handle_server_log, hst, replyOnly]
      | Offline => simp [handle_server_log, hst, replyOnly]
      | Starting p t => simp [handle_server_log, hst, replyOnly]
  | LagSpike len ticks =>
      simp only [handle_server_log, replyOnly, List.mem_singleton]
      exact ne_append_right died_msg "Lag spike - " 1 (by decide) (by decide) _
  | BackupStarted => exact died_not_in_queueStep env s _ _
  | BackupFinished time => exact died_not_in_queueStep env s _ _
  | UserLogin name => exact died_not_in_queueStep env s _ _
  | UserLogout name => exact died_not_in_queueStep env s _ _
  | ChatMessage name message => exact died_not_in_queueStep env s _ _

theorem died_not_sent (env : Env) (s : MachineState) (ev : Inbound) :
    died_msg ∉ (handleInbound env s ev).sent := by
  cases ev with
  | discordMsg m =>
      cases m with
      | none =>
          simp only [handleInbound, reconnectStep]
          split <;> simp [replyOnly]
      | some ev => exact died_not_in_discord env s ev
  | serverLogMsg m =>
      cases m with
      | none =>
          simp only [handleInbound, logChannelClosed]
          cases hst : s.server_status <;> simp [hst, replyOnly]
      | some ev => exact died_not_in_log env s ev
  | timerTick => simp [handleInbound, replyOnly]

/-- C1: on every loop iteration the periodic poll is evaluated before the
inbound event: when the state is `Running p` and the poll observes that `p`
has exited, the iteration equals the death notification followed by the
handling of the inbound event from the already-updated `Offline` state, and
exactly one death notification is emitted in the whole iteration. -/
theorem c1_poll_before_inbound (env : Env) (s : MachineState) (p : Nat) (ev : Inbound)
    (hs : s.server_status = ServerStatus.Running p) (hx : env.exited p = true) :
    loopIter env s ev =
      { state := (handleInbound env { s with server_status := ServerStatus.Offline } ev).state,
        sent := died_msg ::
          (handleInbound env { s with server_status := ServerStatus.Offline } ev).sent,
        kills := (handleInbound env { s with server_status := ServerStatus.Offline } ev).kills,
        spawned := (handleInbound env { s with server_status := ServerStatus.Offline } ev).spawned,
        halted := (handleInbound env { s with server_status := ServerStatus.Offline } ev).halted } ∧
    (loopIter env s ev).sent.count died_msg = 1 := by
  have hpoll : pollStep env s =
      { state := { s with server_status := ServerStatus.Offline },
        sent := [died_msg], kills := [] } := by
    simp [pollStep, hs, hx]
  constructor
  · simp only [loopIter, hpoll, List.singleton_append, List.nil_append]
  · have h0 : (handleInbound env { s with server_status := ServerStatus.Offline } ev).sent.count
        died_msg = 0 :=
      List.count_eq_zero.mpr (died_not_sent env _ ev)
    simp only [loopIter, hpoll, List.singleton_append, List.nil_append, List.count_cons, h0]
    simp

/-- C1 witness: `Running 0` with the process reported exited; the tick
iteration emits exactly one death notification. -/
theorem c1_poll_before_inbound_witness :
    sRunning0.server_status = ServerStatus.Running 0 ∧
    envAllExited.exited 0 = true ∧
    (loopIter envAllExited sRunning0 Inbound.timerTick).sent.count died_msg = 1 :=
  ⟨rfl, rfl, (c1_poll_before_inbound envAllExited sRunning0 0 Inbound.timerTick rfl rfl).2⟩

/-- C3 counterexample: with a failing rcon spawn, `StopRequested` in
`Running 0` aborts `main_thread` (`halted = true`) having sent nothing at
all — no failure report reaches the operator, contradicting the claim that
the failure is reported to the operator. -/
theorem c3_counterexample :
    (handle_discord envNoSpawn sRunning0 FromDiscord.StopServerEvent).halted = true ∧
    (handle_discord envNoSpawn sRunning0 FromDiscord.StopServerEvent).sent = [] := by
  constructor <;> rfl

/-- C3 (amended): for every spawning command (start, stop, kill, cancel,
backup, op), a spawn failure aborts the in-progress transition with the
machine state exactly as it was (no partial transition committed) and the
error propagates out of the control loop (`halted`); nothing is sent after
the failed spawn — in particular no failure report — the only reply ever
present being the cancel path's kill-outcome notice, sent before its spawn. -/
theorem c3_spawn_failure_aborts (env : Env) (s : MachineState) :
    (env.spawnServer = none →
      (s.server_status = ServerStatus.Unknown ∨ s.server_status = ServerStatus.Offline) →
      handle_discord env s FromDiscord.StartServerEvent =
        { state := s, sent := [], kills := [], spawned := [], halted := true }) ∧
    (env.spawnRcon = none → ∀ p,
      (s.server_status = ServerStatus.Running p ∨ s.server_status = ServerStatus.Unknown) →
      handle_discord env s FromDiscord.StopServerEvent =
        { state := s, sent := [], kills := [], spawned := [], halted := true }) ∧
    (env.spawnRcon = none → ∀ p,
      (s.server_status = ServerStatus.Running p ∨ s.server_status = ServerStatus.Unknown) →
      handle_discord env s FromDiscord.KillServerEvent =
        { state := s, sent := [], kills := [], spawned := [], halted := true }) ∧
    (env.spawnRcon = none → ∀ sp g, s.server_status = ServerStatus.Stopping sp (some g) →
      handle_discord env s FromDiscord.CancelShutdownEvent =
        { state := s,
          sent := [if env.killOk g then "Shutdown cancelled"
                   else "Error while cancelling shutdown"],
          kills := [g], spawned := [], halted := true }) ∧
    (env.spawnRcon = none → ∀ p,
      (s.server_status = ServerStatus.Running p ∨ s.server_status = ServerStatus.Unknown) →
      handle_discord env s FromDiscord.BackupEvent =
        { state := s, sent := [], kills := [], spawned := [], halted := true }) ∧
    (env.spawnRcon = none → ∀ u p, u ≠ "" →
      (s.server_status = ServerStatus.Running p ∨ s.server_status = ServerStatus.Unknown) →
      handle_discord env s (FromDiscord.OpCommandEvent u) =
        { state := s, sent := [], kills := [], spawned := [], halted := true }) := by
  refine ⟨?_, ?_, ?_, ?_, ?_, ?_⟩
  · intro hsp hst
    rcases hst with hst | hst <;> simp [handle_discord, hst, hsp]
  · intro hsr p hst
    rcases hst with hst | hst <;> simp [handle_discord, hst, hsr]
  · intro hsr p hst
    rcases hst with hst | hst <;> simp [handle_discord, hst, hsr]
  · intro hsr sp g hst
    simp [handle_discord, hst, hsr]
  · intro hsr p hst
    rcases hst with hst | hst <;> simp [handle_discord, hst, hsr]
  · intro hsr u p hu hst
    rcases hst with hst | hst <;> simp [handle_discord, hst, hsr, hu]

/-- C3 witness: failing rcon spawn on `KillRequested` in `Running 0` halts
with the state untouched and nothing sent. -/
theorem c3_spawn_failure_aborts_witness :
    envNoSpawn.spawnRcon = none ∧ sRunning0.server_status = ServerStatus.Running 0 ∧
    handle_discord envNoSpawn sRunning0 FromDiscord.KillServerEvent =
      { state := sRunning0, sent := [], kills := [], spawned := [], halted := true } :=
  ⟨rfl, rfl, (c3_spawn_failure_aborts envNoSpawn sRunning0).2.2.1 rfl 0 (Or.inl rfl)⟩

/-- C4 counterexample: `BackupRequested` in state `Unknown` with a failing
rcon spawn is answered with silence — the reply list is empty, not a single
textual reply, contradicting the claim for this operator command. -/
theorem c4_counterexample :
    isOperatorCommand FromDiscord.BackupEvent = true ∧
    (handle_discord envNoSpawn sUnknown FromDiscord.BackupEvent).sent = [] ∧
    (handle_discord envNoSpawn sUnknown FromDiscord.BackupEvent).sent.length ≠ 1 := by
  refine ⟨rfl, rfl, by decide⟩

/-- C4 (amended): every operator command (the eleven command variants of
`FromDiscord`, channel-management events excluded) receives exactly one
textual reply in every state, on no-op and error paths alike, whenever its
handling does not abort `main_thread` through a failed spawn; when a spawn
fails the loop terminates and the command receives no reply, except
`CancelShutdownRequested`, which still receives exactly one reply — its
kill-outcome notice, sent before the failing spawn. -/
theorem c4_exactly_one_reply (env : Env) (s : MachineState) (ev : FromDiscord)
    (hcmd : isOperatorCommand ev = true) :
    ((handle_discord env s ev).halted = false →
      (handle_discord env s ev).sent.length = 1) ∧
    ((handle_discord env s ev).halted = true → ev ≠ FromDiscord.CancelShutdownEvent →
      (handle_discord env s ev).sent = []) ∧
    ((handle_discord env s ev).halted = true → ev = FromDiscord.CancelShutdownEvent →
      (handle_discord env s ev).sent.length = 1) := by
  cases ev with
  | ReconnectEvent => exact absurd hcmd (by decide)
  | ErrorEvent => exact absurd hcmd (by decide)
  | StartServerEvent =>
      refine ⟨?_, ?_, fun _ heq => FromDiscord.noConfusion heq⟩ <;>
        cases hst : s.server_status <;>
          simp only [handle_discord, hst, replyOnly] <;>
          (try cases hsp : env.spawnServer <;> simp only [hsp]) <;> simp
  | StopServerEvent =>
      refine ⟨?_, ?_, fun _ heq => FromDiscord.noConfusion heq⟩ <;>
        cases hst : s.server_status <;>
          simp only [handle_discord, hst, replyOnly] <;>
          (try cases hsr : env.spawnRcon <;> simp only [hsr]) <;> simp
  | KillServerEvent =>
      refine ⟨?_, ?_, fun _ heq => FromDiscord.noConfusion heq⟩ <;>
        cases hst : s.server_status <;>
          simp only [handle_discord, hst, replyOnly] <;>
          (try cases hsr : env.spawnRcon <;> simp only [hsr]) <;> simp
  | ShutdownServerEvent h m =>
      refine ⟨?_, ?_, fun _ heq => FromDiscord.noConfusion heq⟩ <;>
        simp [handle_discord, replyOnly]
  | CancelShutdownEvent =>
      refine ⟨?_, fun _ hne => absurd rfl hne, fun hhalt _ => ?_⟩ <;>
        [skip; revert hhalt] <;>
        (cases hst : s.server_status with
          | Stopping sp g =>
              cases g <;> simp only [handle_discord, hst, replyOnly] <;>
                (try cases hsr : env.spawnRcon <;> simp only [hsr]) <;> simp
          | Unknown => simp [handle_discord, hst, replyOnly]
          | Offline => simp [handle_discord, hst, replyOnly]
          | Starting p t => simp [handle_discord, hst, replyOnly]
          | Running p => simp [handle_discord, hst, replyOnly])
  | BackupEvent =>
      refine ⟨?_, ?_, fun _ heq => FromDiscord.noConfusion heq⟩ <;>
        cases hst : s.server_status <;>
          simp only [handle_discord, hst, replyOnly] <;>
          (try cases hsr : env.spawnRcon <;> simp only [hsr]) <;> simp
  | OpCommandEvent user =>
      refine ⟨?_, ?_, fun _ heq => FromDiscord.noConfusion heq⟩ <;>
        (by_cases hu : user = "")
      · simp [handle_discord, hu, replyOnly]
      · simp only [handle_discord, if_neg hu]
        cases hst : s.server_status <;> simp only [hst, replyOnly] <;>
          (try cases hsr : env.spawnRcon <;> simp only [hsr]) <;> simp
      · simp [handle_discord, hu, replyOnly]
      · simp only [handle_discord, if_neg hu]
        cases hst : s.server_status <;> simp only [hst, replyOnly] <;>
          (try cases hsr : env.spawnRcon <;> simp only [hsr]) <;> simp
  | StatusQueryEvent =>
      refine ⟨?_, ?_, fun _ heq => FromDiscord.noConfusion heq⟩ <;>
        cases hst : s.server_status <;> simp [handle_discord, hst, replyOnly]
  | HelpEvent =>
      refine ⟨?_, ?_, fun _ heq => FromDiscord.noConfusion heq⟩ <;>
        simp [handle_discord, replyOnly]
  | UnknownCommand =>
      refine ⟨?_, ?_, fun _ heq => FromDiscord.noConfusion heq⟩ <;>
        simp [handle_discord, replyOnly]
  | NoCommand =>
      refine ⟨?_, ?_, fun _ heq => FromDiscord.noConfusion heq⟩ <;>
        simp [handle_discord, replyOnly]

/-- C4 witness: a status query in `Running 0` with a healthy environment is
not halted and gets exactly one reply; a cancel in `Stopping` with a failing
spawn halts but still gets exactly its one kill-outcome notice. -/
theorem c4_exactly_one_reply_witness :
    isOperatorCommand FromDiscord.StatusQueryEvent = true ∧
    (handle_discord envQuiet sRunning0 FromDiscord.StatusQueryEvent).halted = false ∧
    (handle_discord envQuiet sRunning0 FromDiscord.StatusQueryEvent).sent.length = 1 ∧
    (handle_discord envNoSpawn sStoppingBoth FromDiscord.CancelShutdownEvent).halted = true ∧
    (handle_discord envNoSpawn sStoppingBoth FromDiscord.CancelShutdownEvent).sent.length = 1 :=
  ⟨rfl, rfl,
   (c4_exactly_one_reply envQuiet sRunning0 FromDiscord.StatusQueryEvent rfl).1 rfl,
   rfl,
   (c4_exactly_one_reply envNoSpawn sStoppingBoth FromDiscord.CancelShutdownEvent rfl).2.2
     rfl rfl⟩
